import Mathlib

/-!
# V.O.R.T.E.X — verification of the interaction-orchestrator core

A shallow embedding, in Lean 4, of the concurrency / state-machine core of
the V.O.R.T.E.X voice assistant (`src/vortex/`), together with theorems
settling the behavioural claims about it.

Modelling conventions:

* Each Python class relevant to a claim is embedded as a Lean structure
  holding its mutable fields, and each method (or loop body) as a pure
  state-transition function translated line-by-line from the source.
* The Qt signal/slot machinery serialises the controller's event handlers
  on a single thread, and each background worker's loop body runs between
  scheduler points; accordingly, handlers and single loop iterations are
  modelled as atomic steps of a labelled transition system, and whole-run
  behaviour as a fold of steps over an arbitrary event list.
* Similarity scores (Python floats) are modelled as rationals `ℚ`; the
  thresholds 0.75 / 0.8 become `3/4` / `4/5`.
* Python code that may raise is modelled with `Except` (for call results)
  or with explicit boolean "this call raises" fields in an environment
  record, so `try/except/finally` structure can be translated directly.

The file is organised as: all model definitions first, then all theorems.
-/

namespace Vortex

/-! ## Model: `TTSService` (`src/vortex/core/tts_service.py`)

State: the utterance queue (`self._queue`), the running flag
(`self._running`) and — for observation — the list of utterances the
worker has actually handed to the PowerShell subprocess (`spoken`).
-/

structure TTSState where
  queue : List String
  running : Bool
  spoken : List String
  deriving Repr, DecidableEq

/-- A freshly constructed `TTSService.__init__`: empty queue, `_running = True`. -/
def TTSState.init : TTSState := ⟨[], true, []⟩

/-- `TTSService.speak(text)`: `if not text or not self._running: return`,
otherwise `self._queue.put_nowait(text)`.  Total (never blocks, never
raises: the queue is unbounded and `put_nowait` is wrapped in
`try/except queue.Full`). -/
def TTSState.speak (s : TTSState) (text : String) : TTSState :=
  if text = "" ∨ s.running = false then s
  else { s with queue := s.queue ++ [text] }

/-- `TTSService.shutdown()`: clears `_running`, then enqueues the empty
sentinel `""` to unblock the worker's `get`, then joins with a 2 s
timeout (the join does not change queue state). -/
def TTSState.shutdown (s : TTSState) : TTSState :=
  { s with running := false, queue := s.queue ++ [""] }

/-- One iteration of `TTSService._worker_loop`:
`while self._running:` guards the iteration; `get` a text (we only model
iterations whose `get` finds the queue nonempty — an `Empty` timeout
leaves the state unchanged); then `if not self._running: break`,
`if not text: continue`, else speak it via `subprocess.run`. -/
def TTSState.workerStep (s : TTSState) : TTSState :=
  if s.running = false then s        -- loop condition fails: worker exits
  else
    match s.queue with
    | [] => s                        -- queue.Empty: continue
    | t :: rest =>
        if t = "" then { s with queue := rest }   -- `if not text: continue`
        else { s with queue := rest, spoken := s.spoken ++ [t] }

/-- `n` scheduler steps of the worker loop. -/
def TTSState.workerRun : Nat → TTSState → TTSState
  | 0, s => s
  | n + 1, s => TTSState.workerRun n s.workerStep

/-- Claim C7 as stated: every utterance already queued at the moment
`shutdown()` is called is eventually spoken (drained) by the worker. -/
def ttsShutdownDrains : Prop :=
  ∀ (s : TTSState), s.running = true →
    ∀ t ∈ s.queue, t ≠ "" →
      ∃ n, t ∈ (TTSState.workerRun n s.shutdown).spoken

/-! ## Model: `CameraMonitor` frame processing
(`src/vortex/core/camera_monitor.py`, `_run`)

One loop iteration of `CameraMonitor._run` reads a frame.  A read either
fails (`not ret or frame is None`) or yields a frame classified by
`_is_dark` as dark or clear.  We model a frame read as `Option Bool`
(`none` = read failure, `some dark` = successful read) and translate the
loop body into a state-transition function. -/

inductive CamEvent where
  | blocked
  | restored
  deriving Repr, DecidableEq

structure CamState where
  darkCount : Nat
  consecutiveFailures : Nat
  blockedState : Bool
  events : List CamEvent
  deriving Repr, DecidableEq

/-- `self.dark_frames_required = 5`. -/
def darkFramesRequired : Nat := 5

/-- `max_failures = 10`. -/
def maxFailures : Nat := 10

/-- Monitor state when `_run` enters its loop: counters zero, not blocked. -/
def CamState.init : CamState := ⟨0, 0, false, []⟩

/-- Loop body for a successful read (`ret and frame is not None`):
reset the failure counter, update `dark_count`, then the two sequential
`if`s that enter and exit the blocked state (each invoking its callback,
recorded here as an appended event). -/
def CamState.okFrame (s : CamState) (dark : Bool) : CamState :=
  let s1 : CamState := { s with consecutiveFailures := 0 }
  let s2 : CamState :=
    if dark then { s1 with darkCount := s1.darkCount + 1 }
    else { s1 with darkCount := 0 }
  let s3 : CamState :=
    if s2.darkCount ≥ darkFramesRequired ∧ s2.blockedState = false then
      { s2 with blockedState := true, events := s2.events ++ [CamEvent.blocked] }
    else s2
  if s3.darkCount = 0 ∧ s3.blockedState = true then
    { s3 with blockedState := false, events := s3.events ++ [CamEvent.restored] }
  else s3

/-- Loop body for a failed read: increment `consecutive_failures`; after
`max_failures` consecutive failures the camera is treated as blocked
(fail safe), emitting `Blocked` once. -/
def CamState.failFrame (s : CamState) : CamState :=
  if s.consecutiveFailures + 1 ≥ maxFailures ∧ s.blockedState = false then
    { s with consecutiveFailures := s.consecutiveFailures + 1,
             blockedState := true, events := s.events ++ [CamEvent.blocked] }
  else { s with consecutiveFailures := s.consecutiveFailures + 1 }

/-- One loop iteration on one frame read. -/
def CamState.step (s : CamState) : Option Bool → CamState
  | none => s.failFrame
  | some dark => s.okFrame dark

/-- The monitor loop over a whole sequence of frame reads. -/
def CamState.run (s : CamState) (frames : List (Option Bool)) : CamState :=
  frames.foldl CamState.step s

/-- Hysteresis invariant of the monitor loop: once the dark run is at the
trip requirement, the monitor is in the blocked state. -/
def CamState.inv (s : CamState) : Prop :=
  s.darkCount ≥ darkFramesRequired → s.blockedState = true

/-! ## Model: `WakeWordListener` (`src/vortex/core/wake_word.py`)

Fields: `_running`, `_porcupine` (live or `None`), `_audio_stream`
(live or closed), the detection thread, and `_detect_queue`.  Detections
are tagged with sequence numbers so that "this particular detection was
delivered" is expressible; `invokedIds` records the arguments of the
`on_detect` invocations in order.

Granularity: the audio callback, one iteration of
`_run_detection_loop`, `start()` and `stop()` are each one atomic step;
`stop()` includes the detection thread subsequently observing
`_running == False` and exiting (the loop polls every 0.5 s).  Crucially,
`stop()` does not touch `_detect_queue`, and `start()` reuses the same
queue object — both faithful to the source. -/

structure WLEnv where
  accessKeyOk : Bool
  porcupineOk : Bool
  audioOk : Bool
  deriving Repr, DecidableEq

structure WLState where
  running : Bool
  porcupineLive : Bool
  streamLive : Bool
  workers : Nat
  queue : List Nat
  nextId : Nat
  invokedIds : List Nat
  deriving Repr, DecidableEq

/-- `WakeWordListener.__init__`: nothing running, empty queue. -/
def WLState.init : WLState := ⟨false, false, false, 0, [], 0, []⟩

/-- `WakeWordListener.start()`: `if self._running: return`; bail out if the
access key is empty, Porcupine creation fails, or the audio stream fails to
open (in which case the just-created Porcupine is deleted again); otherwise
set `_running`, spawn the detection thread. -/
def WLState.start (env : WLEnv) (w : WLState) : WLState :=
  if w.running then w
  else if env.accessKeyOk = false then w
  else if env.porcupineOk = false then w
  else if env.audioOk = false then { w with porcupineLive := false }
  else { w with running := true, porcupineLive := true, streamLive := true,
                workers := w.workers + 1 }

/-- `WakeWordListener.stop()`: clear `_running`, stop/close the audio
stream, delete Porcupine.  The detection thread is not joined, but exits
at its next `while self._running` check (folded into this step).  The
detection queue is left untouched. -/
def WLState.stop (w : WLState) : WLState :=
  { w with running := false, streamLive := false, porcupineLive := false,
           workers := 0 }

/-- `_audio_callback` on a window in which Porcupine detects the keyword:
the callback only fires while the stream is open, returns early if
`self._porcupine` is `None`, and otherwise enqueues the detection. -/
def WLState.detect (w : WLState) : WLState :=
  if w.streamLive = true ∧ w.porcupineLive = true then
    { w with queue := w.queue ++ [w.nextId], nextId := w.nextId + 1 }
  else { w with nextId := w.nextId + 1 }

/-- One iteration of `_run_detection_loop`: if `_running`, `get` a queued
detection (a `queue.Empty` timeout just continues) and invoke
`on_detect`; if not `_running`, the loop has exited and nothing happens. -/
def WLState.loopIter (w : WLState) : WLState :=
  if w.running then
    match w.queue with
    | [] => w
    | i :: rest => { w with queue := rest, invokedIds := w.invokedIds ++ [i] }
  else w

inductive WLOp where
  | start (env : WLEnv)
  | stop
  | detect
  | loopIter
  deriving Repr, DecidableEq

def WLState.step (w : WLState) : WLOp → WLState
  | .start env => w.start env
  | .stop => w.stop
  | .detect => w.detect
  | .loopIter => w.loopIter

def WLState.run (w : WLState) (ops : List WLOp) : WLState :=
  ops.foldl WLState.step w

/-- Listener lifecycle invariant: the audio stream and the Porcupine
handle are live exactly while `_running`, and there is one detection
thread while `_running` and none otherwise. -/
def WLState.linv (w : WLState) : Prop :=
  w.streamLive = w.running ∧ w.porcupineLive = w.running ∧
    w.workers = (if w.running = true then 1 else 0)

/-- Claim C6 as stated: a detection sitting in the queue at a moment the
listener is stopped is never delivered to `on_detect`, no matter what
happens afterwards. -/
def stoppedQueueNeverInvoked : Prop :=
  ∀ (ops₁ ops₂ : List WLOp),
    (WLState.init.run ops₁).running = false →
    ∀ i ∈ (WLState.init.run ops₁).queue,
      i ∉ ((WLState.init.run ops₁).run ops₂).invokedIds

/-! ## Model: `CameraMonitor` lifecycle (`start` / `stop`) -/

structure CMState where
  running : Bool
  workers : Nat
  deriving Repr, DecidableEq

def CMState.init : CMState := ⟨false, 0⟩

/-- `CameraMonitor.start(camera_index)`: `if self.running: return`; set
`running` and spawn the `_run` thread.  If the camera cannot be opened the
spawned thread returns immediately (net effect: no live worker). -/
def CMState.start (openOk : Bool) (m : CMState) : CMState :=
  if m.running then m
  else { running := true, workers := if openOk then m.workers + 1 else m.workers }

/-- `CameraMonitor.stop()`: clear `running` and join the thread. -/
def CMState.stop (_ : CMState) : CMState := ⟨false, 0⟩

inductive CMOp where
  | start (openOk : Bool)
  | stop
  deriving Repr, DecidableEq

def CMState.step (m : CMState) : CMOp → CMState
  | .start openOk => m.start openOk
  | .stop => m.stop

def CMState.run (m : CMState) (ops : List CMOp) : CMState :=
  ops.foldl CMState.step m

def CMState.linv (m : CMState) : Prop :=
  m.workers ≤ 1 ∧ (m.running = false → m.workers = 0)

/-! ## Model: `IdentityManager` (`src/vortex/core/identity.py`)

The embedding abstracts the biometric models themselves (resemblyzer /
InsightFace are external collaborators): the similarity a probe would
score is an input of the environment, and "this call would raise" flags
stand for exceptions out of the collaborator calls.  The decision logic,
prerequisite checks, early-match loop, and `try/finally` camera release
are translated from the source. -/

/-- `self.voice_threshold = 0.75`. -/
def voiceThreshold : ℚ := 3 / 4

/-- `self.face_threshold = 0.8`. -/
def faceThreshold : ℚ := 4 / 5

/-- `IdentityManager.verify_voice(audio, sample_rate)`: if no voiceprint
file exists, return `(False, 0.0)` before touching the encoder; otherwise
lazily load the encoder and embed the probe (either of which may raise,
modelled by `encoderRaises`), and return
`(sim >= self.voice_threshold, sim)`. -/
def verify_voice (hasVoiceprint : Bool) (encoderRaises : Bool) (sim : ℚ) :
    Except Unit (Bool × ℚ) :=
  if hasVoiceprint = false then Except.ok (false, 0)
  else if encoderRaises = true then Except.error ()
  else Except.ok (decide (voiceThreshold ≤ sim), sim)

/-- What one iteration of the `verify_face_live` capture loop encounters:
a failed `cap.read()`, a frame with no detected face, a frame whose
largest face scores similarity `sim`, or an exception raised
mid-iteration (e.g. out of `cvtColor`/`app.get`). -/
inductive FrameOutcome where
  | readFail
  | noFace
  | face (sim : ℚ)
  | raises
  deriving Repr, DecidableEq

structure FaceEnv where
  hasFaceprint : Bool
  cameraOpens : Bool
  frames : List FrameOutcome
  deriving Repr, DecidableEq

structure FaceVerifyResult where
  ok : Bool
  bestSim : ℚ
  cameraOpened : Bool
  cameraReleased : Bool
  raised : Bool
  deriving Repr, DecidableEq

/-- The `for _ in range(max_attempts)` loop of `verify_face_live`,
accumulating `best_sim` and breaking early on the first match
`sim >= self.face_threshold`; returns `(ok, best_sim, raised)`. -/
def faceLoop : List FrameOutcome → ℚ → Bool × ℚ × Bool
  | [], best => (false, best, false)
  | f :: rest, best =>
      match f with
      | .readFail => faceLoop rest best
      | .noFace => faceLoop rest best
      | .raises => (false, best, true)
      | .face sim =>
          if faceThreshold ≤ sim then (true, max best sim, false)
          else faceLoop rest (max best sim)

/-- `IdentityManager.verify_face_live(camera_index, max_attempts)`:
no faceprint → `(False, 0.0)` (camera never opened); camera fails to open
→ `(False, 0.0)` (nothing to release); otherwise run the capture loop
inside `try: ... finally: cap.release()` — the release therefore happens
whether a match is found, attempts are exhausted, or an iteration raises
(in the last case the exception propagates after the release, recorded in
`raised`). -/
def verify_face_live (env : FaceEnv) : FaceVerifyResult :=
  if env.hasFaceprint = false then
    { ok := false, bestSim := 0, cameraOpened := false,
      cameraReleased := false, raised := false }
  else if env.cameraOpens = false then
    { ok := false, bestSim := 0, cameraOpened := false,
      cameraReleased := false, raised := false }
  else
    let r := faceLoop env.frames (-1)
    { ok := r.1, bestSim := r.2.1, cameraOpened := true,
      cameraReleased := true, raised := r.2.2 }

/-! ## Model: `VortexController._record_and_transcribe`
(`src/vortex/controller.py`, lines 203–256)

The voice-pipeline worker: inside `with self._recording_lock:`, a
`try/except/finally` wraps the camera-lock check, recording, voice
verification and STT; the `except` branch emits the "trouble
understanding" message; the `finally` branch restarts the wake-word
listener; the empty-text check and the command emit run after the
`try` statement.  The controller never calls
`IdentityManager.verify_face_live` (its `use_face_fallback` flag is set
to `False` in `__init__` and read nowhere), which the `faceAttempted`
field of the result records. -/

structure PipelineEnv where
  cameraLocked : Bool
  recordRaises : Bool
  hasVoiceprint : Bool
  voiceRaises : Bool
  voiceSim : ℚ
  sttRaises : Bool
  sttText : String
  hasFaceprint : Bool
  faceCameraOpens : Bool
  faceFrames : List FrameOutcome
  deriving Repr, DecidableEq

inductive StageExc where
  | recordFailed
  | voiceFailed
  | sttFailed
  deriving Repr, DecidableEq

inductive TryOutcome where
  | cameraBlocked
  | intruder (sim : ℚ)
  | gotText (text : String)
  deriving Repr, DecidableEq

inductive Outcome where
  | cameraBlocked
  | intruder (sim : ℚ)
  | error
  | empty
  | ready (text : String)
  deriving Repr, DecidableEq

structure PipelineResult where
  outcome : Outcome
  wakeRestarted : Bool
  faceAttempted : Bool
  troubleMsg : Bool
  deriving Repr, DecidableEq

/-- The `try` block of `_record_and_transcribe` (lines 205–234): camera
check, `record_phrase`, voice verification if a voiceprint is enrolled
(mismatch → security stage + intruder alert + return), then STT.
`Except.error` is a stage raising. -/
def pipelineTry (env : PipelineEnv) : Except StageExc TryOutcome :=
  if env.cameraLocked = true then Except.ok TryOutcome.cameraBlocked
  else if env.recordRaises = true then Except.error StageExc.recordFailed
  else
    -- voice verification; `some sim` = mismatch with similarity `sim`,
    -- `none` = verified or skipped (no voiceprint enrolled)
    let verdict : Except StageExc (Option ℚ) :=
      if env.hasVoiceprint = true then
        match verify_voice true env.voiceRaises env.voiceSim with
        | .error _ => Except.error StageExc.voiceFailed
        | .ok (isOwner, sim) =>
            if isOwner = true then Except.ok none else Except.ok (some sim)
      else Except.ok none
    match verdict with
    | .error e => Except.error e
    | .ok (some sim) => Except.ok (TryOutcome.intruder sim)
    | .ok none =>
        if env.sttRaises = true then Except.error StageExc.sttFailed
        else Except.ok (TryOutcome.gotText env.sttText.trim)

/-- The whole of `_record_and_transcribe`: the `except` clause catches any
stage exception and emits the trouble message; the `finally` clause
restarts the wake listener on every path; the `if not text` check runs
after the `try` statement. -/
def recordAndTranscribe (env : PipelineEnv) : PipelineResult :=
  let afterExcept : Outcome × Bool :=
    match pipelineTry env with
    | .error _ => (Outcome.error, true)
    | .ok TryOutcome.cameraBlocked => (Outcome.cameraBlocked, false)
    | .ok (TryOutcome.intruder sim) => (Outcome.intruder sim, false)
    | .ok (TryOutcome.gotText t) =>
        (if t = "" then Outcome.empty else Outcome.ready t, false)
  { outcome := afterExcept.1,
    wakeRestarted := true,      -- the `finally` runs on every exit path
    faceAttempted := false,     -- verify_face_live is never called here
    troubleMsg := afterExcept.2 }

/-- Claim C2 as stated: when voice verification fails (similarity below
the voice threshold) and a face profile exists, the pipeline escalates to
face verification before deciding. -/
def faceEscalationPolicy : Prop :=
  ∀ env : PipelineEnv,
    env.cameraLocked = false → env.recordRaises = false →
    env.hasVoiceprint = true → env.voiceRaises = false →
    env.voiceSim < voiceThreshold →
    env.hasFaceprint = true →
    (recordAndTranscribe env).faceAttempted = true

/-! ## Model: `VortexController` session arbitration
(`src/vortex/controller.py`, `_on_wake_word` lines 535–552,
`start_voice_capture` lines 184–201)

Controller-level events are serialised on the Qt main thread
(cross-thread signals are queued connections; the 200 ms
`QTimer.singleShot` also fires there), so each handler is one atomic
step; the spawned worker's acquisition of `_recording_lock` is folded
into the step that spawns it, and `sessionEnd` is the worker finishing
`_record_and_transcribe` and releasing the lock. -/

inductive CtrlEvent where
  | wakeWord
  | voiceCapture
  | sessionEnd
  | cameraBlocked
  | cameraRestored
  deriving Repr, DecidableEq

structure CtrlState where
  recording : Bool
  cameraLocked : Bool
  activeSessions : Nat
  startedSessions : Nat
  deriving Repr, DecidableEq

def CtrlState.init : CtrlState := ⟨false, false, 0, 0⟩

/-- `start_voice_capture()`: `if self._recording_lock.locked(): return`
(the request is dropped — nothing is recorded or queued); otherwise stop
the wake listener and spawn the recording worker, which takes the lock. -/
def CtrlState.voiceCapture (s : CtrlState) : CtrlState :=
  if s.recording then s
  else { s with recording := true, activeSessions := s.activeSessions + 1,
                startedSessions := s.startedSessions + 1 }

/-- `_on_wake_word()`: drop if the camera is locked; drop if already
recording; otherwise (after the 200 ms delay) `start_voice_capture`. -/
def CtrlState.wakeWord (s : CtrlState) : CtrlState :=
  if s.cameraLocked then s
  else if s.recording then s
  else s.voiceCapture

/-- The recording worker finishes and the `with` statement releases
`_recording_lock`. -/
def CtrlState.sessionEnd (s : CtrlState) : CtrlState :=
  if s.recording then
    { s with recording := false, activeSessions := s.activeSessions - 1 }
  else s

def CtrlState.step (s : CtrlState) : CtrlEvent → CtrlState
  | .wakeWord => s.wakeWord
  | .voiceCapture => s.voiceCapture
  | .sessionEnd => s.sessionEnd
  | .cameraBlocked => { s with cameraLocked := true }
  | .cameraRestored => { s with cameraLocked := false }

def CtrlState.run (s : CtrlState) (evs : List CtrlEvent) : CtrlState :=
  evs.foldl CtrlState.step s

/-- Session-count invariant: the recording lock is held exactly while one
session is active. -/
def CtrlState.sinv (s : CtrlState) : Prop :=
  s.activeSessions = (if s.recording = true then 1 else 0)

/-! ## Theorems -/

theorem workerStep_of_not_running (s : TTSState) (h : s.running = false) :
    s.workerStep = s := by
  simp [TTSState.workerStep, h]

theorem workerRun_of_not_running (n : Nat) (s : TTSState)
    (h : s.running = false) : TTSState.workerRun n s = s := by
  induction n with
  | zero => rfl
  | succ k ih =>
      simp [TTSState.workerRun, workerStep_of_not_running s h, ih]

theorem CamState.inv_init : CamState.init.inv := by
  intro h
  simp [CamState.init, darkFramesRequired] at h

theorem CamState.inv_step (s : CamState) (f : Option Bool) (h : s.inv) :
    (s.step f).inv := by
  cases f with
  | none =>
      simp only [CamState.step, CamState.failFrame]
      split <;> intro hd <;> simp_all [CamState.inv]
  | some dark =>
      simp only [CamState.step, CamState.okFrame]
      cases dark <;> simp only [Bool.false_eq_true, if_true, if_false] <;>
        split <;> split <;> intro hd <;>
          simp_all [CamState.inv, darkFramesRequired]

theorem CamState.inv_run (s : CamState) (frames : List (Option Bool))
    (h : s.inv) : (s.run frames).inv := by
  induction frames generalizing s with
  | nil => exact h
  | cons f rest ih => exact ih (s.step f) (s.inv_step f h)

/-- Per-step event characterisation of the monitor loop, for any state
satisfying the hysteresis invariant. -/
theorem CamState.okFrame_events (s : CamState) (h : s.inv) (dark : Bool) :
    (s.okFrame dark).events = s.events ++
      (if dark = true ∧ s.darkCount + 1 = darkFramesRequired ∧ s.blockedState = false
       then [CamEvent.blocked]
       else if dark = false ∧ s.blockedState = true then [CamEvent.restored]
       else []) := by
  unfold CamState.okFrame CamState.inv darkFramesRequired at *
  cases dark <;> by_cases hb : s.blockedState = true <;>
    by_cases hd : s.darkCount + 1 ≥ 5 <;>
    simp_all
  · have h4 : s.darkCount = 4 := by omega
    simp [h4]
  · have h4 : ¬ 4 ≤ s.darkCount := by omega
    have h4' : s.darkCount ≠ 4 := by omega
    simp [h4, h4']

/-- Claim C4: for every sequence of frame reads, a further dark frame makes
the monitor emit `Blocked` exactly when the consecutive-dark count first
reaches the requirement (5) while not already blocked — so `Blocked` fires
exactly once at the trip point and not on subsequent dark frames — and a
further clear frame emits `Restored` exactly when the monitor is in the
blocked state, so the first clear frame after blocking emits exactly one
`Restored` and later clear frames emit nothing. -/
theorem claim_C4_blocked_restored_once (frames : List (Option Bool)) (dark : Bool) :
    ((CamState.init.run frames).okFrame dark).events =
      (CamState.init.run frames).events ++
        (if dark = true ∧ (CamState.init.run frames).darkCount + 1 = darkFramesRequired
            ∧ (CamState.init.run frames).blockedState = false
         then [CamEvent.blocked]
         else if dark = false ∧ (CamState.init.run frames).blockedState = true
         then [CamEvent.restored]
         else []) :=
  CamState.okFrame_events (CamState.init.run frames)
    (CamState.inv_run CamState.init frames CamState.inv_init) dark

theorem WLState.wl_linv_init : WLState.init.linv := by
  refine ⟨rfl, rfl, rfl⟩

theorem WLState.wl_linv_step (w : WLState) (op : WLOp) (h : w.linv) :
    (w.step op).linv := by
  obtain ⟨h1, h2, h3⟩ := h
  rcases w with ⟨r, p, st, wk, q, n, ids⟩
  cases op with
  | start env =>
      rcases env with ⟨ak, pk, ao⟩
      cases r <;> cases ak <;> cases pk <;> cases ao <;>
        simp_all [WLState.step, WLState.start, WLState.linv]
  | stop => exact ⟨rfl, rfl, rfl⟩
  | detect =>
      cases r <;> simp_all [WLState.step, WLState.detect, WLState.linv]
  | loopIter =>
      cases r <;> cases q <;>
        simp_all [WLState.step, WLState.loopIter, WLState.linv]

theorem WLState.wl_linv_run (w : WLState) (ops : List WLOp) (h : w.linv) :
    (w.run ops).linv := by
  induction ops generalizing w with
  | nil => exact h
  | cons op rest ih => exact ih (w.step op) (WLState.wl_linv_step w op h)

/-- Claim C6 counterexample: `stop()` does not drain `_detect_queue` and
`start()` reuses it.  Start the listener, let one detection be queued,
stop before the detection loop consumes it: the queue still holds it
while stopped.  Restart and let the loop run once: the stale detection is
delivered to `on_detect`. -/
theorem claim_C6_counterexample : ¬ stoppedQueueNeverInvoked := by
  intro h
  exact
    h [WLOp.start ⟨true, true, true⟩, WLOp.detect, WLOp.stop]
      [WLOp.start ⟨true, true, true⟩, WLOp.loopIter]
      (by decide) 0 (by decide) (by decide)

/-- Claim C6 (amended): while the listener is stopped, the state guards do
hold — the detection loop invokes `on_detect` for nothing (the loop has
exited at the `while self._running` check) and no new detection is
enqueued (the stream is closed and the `_porcupine is None` guard returns
early), so the queue is unchanged too.  However, detections queued before
`stop()` remain in the queue and are delivered once the listener is
started again (see the counterexample). -/
theorem claim_C6_amended (ops : List WLOp) (op : WLOp)
    (h : (WLState.init.run ops).running = false) :
    ((WLState.init.run ops).step op).invokedIds
        = (WLState.init.run ops).invokedIds ∧
      ((WLState.init.run ops).step op).queue = (WLState.init.run ops).queue := by
  have hinv := WLState.wl_linv_run WLState.init ops WLState.wl_linv_init
  obtain ⟨h1, h2, h3⟩ := hinv
  cases op with
  | start env =>
      simp only [WLState.step, WLState.start]
      rw [h]
      split <;> try exact ⟨rfl, rfl⟩
      split <;> try exact ⟨rfl, rfl⟩
      split <;> try exact ⟨rfl, rfl⟩
      split <;> exact ⟨rfl, rfl⟩
  | stop => exact ⟨rfl, rfl⟩
  | detect =>
      simp only [WLState.step, WLState.detect]
      rw [h] at h1
      simp [h1]
  | loopIter =>
      simp only [WLState.step, WLState.loopIter]
      rw [h]
      simp

/-- Witness for the amended C6 theorem: concretely, after
`[start, detect, stop]` the listener is stopped with one queued
detection, and a further loop iteration neither invokes anything nor
changes the queue. -/
theorem claim_C6_amended_witness :
    ((WLState.init.run
        [WLOp.start ⟨true, true, true⟩, WLOp.detect, WLOp.stop]).step
          WLOp.loopIter).invokedIds
      = (WLState.init.run
          [WLOp.start ⟨true, true, true⟩, WLOp.detect, WLOp.stop]).invokedIds ∧
    ((WLState.init.run
        [WLOp.start ⟨true, true, true⟩, WLOp.detect, WLOp.stop]).step
          WLOp.loopIter).queue
      = (WLState.init.run
          [WLOp.start ⟨true, true, true⟩, WLOp.detect, WLOp.stop]).queue :=
  claim_C6_amended [WLOp.start ⟨true, true, true⟩, WLOp.detect, WLOp.stop]
    WLOp.loopIter (by decide)

theorem CMState.cm_linv_init : CMState.init.linv := ⟨by decide, fun _ => rfl⟩

theorem CMState.cm_linv_step (m : CMState) (op : CMOp) (h : m.linv) :
    (m.step op).linv := by
  obtain ⟨h1, h2⟩ := h
  cases op with
  | start openOk =>
      simp only [CMState.step, CMState.start]
      split
      · exact ⟨h1, h2⟩
      · rename_i hr
        have h0 : m.workers = 0 := h2 (by simp_all)
        constructor
        · simp [h0]
          split <;> simp
        · intro hc
          simp at hc
  | stop => exact ⟨by simp [CMState.step, CMState.stop], fun _ => rfl⟩

theorem CMState.cm_linv_run (m : CMState) (ops : List CMOp) (h : m.linv) :
    (m.run ops).linv := by
  induction ops generalizing m with
  | nil => exact h
  | cons op rest ih => exact ih (m.step op) (CMState.cm_linv_step m op h)

/-- Claim C9: starting an already-running background worker is idempotent —
`CameraMonitor.start` while running and `WakeWordListener.start` while
running return immediately, leaving the state (thread count included)
exactly unchanged — and consequently, over every sequence of lifecycle
operations, each component has at most one live worker thread. -/
theorem claim_C9_start_idempotent :
    (∀ (m : CMState) (openOk : Bool), m.running = true →
        m.start openOk = m) ∧
    (∀ (w : WLState) (env : WLEnv), w.running = true →
        w.start env = w) ∧
    (∀ ops : List CMOp, (CMState.init.run ops).workers ≤ 1) ∧
    (∀ ops : List WLOp, (WLState.init.run ops).workers ≤ 1) := by
  refine ⟨?_, ?_, ?_, ?_⟩
  · intro m openOk h
    simp [CMState.start, h]
  · intro w env h
    simp [WLState.start, h]
  · intro ops
    exact (CMState.cm_linv_run CMState.init ops CMState.cm_linv_init).1
  · intro ops
    have h := (WLState.wl_linv_run WLState.init ops WLState.wl_linv_init).2.2
    rw [h]
    split <;> simp

/-- Witness for C9: with one worker running in each component, a second
`start` is the identity, and concrete lifecycle runs keep the worker
count at one. -/
theorem claim_C9_witness :
    CMState.start true ⟨true, 1⟩ = ⟨true, 1⟩ ∧
      WLState.start ⟨true, true, true⟩ ⟨true, true, true, 1, [], 0, []⟩
        = ⟨true, true, true, 1, [], 0, []⟩ ∧
      (CMState.init.run [CMOp.start true, CMOp.start true]).workers ≤ 1 ∧
      (WLState.init.run [WLOp.start ⟨true, true, true⟩,
          WLOp.start ⟨true, true, true⟩]).workers ≤ 1 :=
  ⟨claim_C9_start_idempotent.1 ⟨true, 1⟩ true rfl,
   claim_C9_start_idempotent.2.1 ⟨true, true, true, 1, [], 0, []⟩
     ⟨true, true, true⟩ rfl,
   claim_C9_start_idempotent.2.2.1 [CMOp.start true, CMOp.start true],
   claim_C9_start_idempotent.2.2.2 [WLOp.start ⟨true, true, true⟩,
     WLOp.start ⟨true, true, true⟩]⟩

theorem CtrlState.sinv_init : CtrlState.init.sinv := rfl

theorem CtrlState.sinv_step (s : CtrlState) (ev : CtrlEvent) (h : s.sinv) :
    (s.step ev).sinv := by
  rcases s with ⟨r, c, a, st⟩
  cases ev <;> cases r <;> cases c <;>
    simp_all [CtrlState.step, CtrlState.wakeWord, CtrlState.voiceCapture,
      CtrlState.sessionEnd, CtrlState.sinv]

theorem CtrlState.sinv_run (s : CtrlState) (evs : List CtrlEvent)
    (h : s.sinv) : (s.run evs).sinv := by
  induction evs generalizing s with
  | nil => exact h
  | cons ev rest ih => exact ih (s.step ev) (s.sinv_step ev h)

/-- Claim C1: over every sequence of controller events, at most one
recording/verification/transcription session is active at a time, and a
`WakeDetected` event or voice-capture request arriving while the
recording lock is held leaves the controller state exactly unchanged —
the event is dropped on the spot, nothing is queued anywhere (in
particular the session counters do not move), so no backlog of pending
sessions can form. -/
theorem claim_C1_single_session (evs : List CtrlEvent) :
    (CtrlState.init.run evs).activeSessions ≤ 1 ∧
      ((CtrlState.init.run evs).recording = true →
        (CtrlState.init.run evs).step CtrlEvent.wakeWord
            = CtrlState.init.run evs ∧
          (CtrlState.init.run evs).step CtrlEvent.voiceCapture
            = CtrlState.init.run evs) := by
  have h := CtrlState.sinv_run CtrlState.init evs CtrlState.sinv_init
  constructor
  · rw [h]
    split <;> simp
  · intro hr
    constructor
    · simp [CtrlState.step, CtrlState.wakeWord, CtrlState.voiceCapture, hr]
    · simp [CtrlState.step, CtrlState.voiceCapture, hr]

/-- Witness for C1: after one accepted wake word the lock is held, and both
a second wake word and a UI voice-capture request are dropped without any
state change. -/
theorem claim_C1_witness :
    (CtrlState.init.run [CtrlEvent.wakeWord]).activeSessions ≤ 1 ∧
      (CtrlState.init.run [CtrlEvent.wakeWord]).step CtrlEvent.wakeWord
          = CtrlState.init.run [CtrlEvent.wakeWord] ∧
        (CtrlState.init.run [CtrlEvent.wakeWord]).step CtrlEvent.voiceCapture
          = CtrlState.init.run [CtrlEvent.wakeWord] :=
  ⟨(claim_C1_single_session [CtrlEvent.wakeWord]).1,
   ((claim_C1_single_session [CtrlEvent.wakeWord]).2 (by decide)).1,
   ((claim_C1_single_session [CtrlEvent.wakeWord]).2 (by decide)).2⟩

/-- Claim C2 counterexample: with a voiceprint enrolled, a probe scoring
similarity 0.6 (below the 0.75 threshold), a face profile enrolled, a
working camera and a frame whose face would score 0.9 (above the 0.8
threshold), the pipeline still never attempts face verification — it
declares the intruder outcome directly. -/
theorem claim_C2_counterexample : ¬ faceEscalationPolicy := by
  intro h
  have hc :=
    h { cameraLocked := false, recordRaises := false,
        hasVoiceprint := true, voiceRaises := false,
        voiceSim := 3 / 5, sttRaises := false, sttText := "",
        hasFaceprint := true, faceCameraOpens := true,
        faceFrames := [FrameOutcome.face (9 / 10)] }
      rfl rfl rfl rfl (by norm_num [voiceThreshold]) rfl
  exact Bool.noConfusion hc

/-- Claim C2 (amended): when voice verification fails (similarity below
the voice threshold), the pipeline declares the intruder outcome
immediately; face verification is never attempted, even when a face
profile exists — `IdentityManager.verify_face_live` is simply not called
by the controller. -/
theorem claim_C2_amended (env : PipelineEnv)
    (h1 : env.cameraLocked = false) (h2 : env.recordRaises = false)
    (h3 : env.hasVoiceprint = true) (h4 : env.voiceRaises = false)
    (h5 : env.voiceSim < voiceThreshold) :
    (recordAndTranscribe env).outcome = Outcome.intruder env.voiceSim ∧
      (recordAndTranscribe env).faceAttempted = false := by
  have hv : verify_voice true env.voiceRaises env.voiceSim
      = Except.ok (false, env.voiceSim) := by
    simp [verify_voice, h4, decide_eq_false (not_le.mpr h5)]
  have hp : pipelineTry env = Except.ok (TryOutcome.intruder env.voiceSim) := by
    simp [pipelineTry, h1, h2, h3, hv]
  simp [recordAndTranscribe, hp]

/-- Witness for the amended C2 theorem at the counterexample environment:
voice similarity 0.6, matching face available — outcome is intruder at
similarity 0.6 and no face verification is attempted. -/
theorem claim_C2_amended_witness :
    (recordAndTranscribe
        { cameraLocked := false, recordRaises := false,
          hasVoiceprint := true, voiceRaises := false,
          voiceSim := 3 / 5, sttRaises := false, sttText := "",
          hasFaceprint := true, faceCameraOpens := true,
          faceFrames := [FrameOutcome.face (9 / 10)] }).outcome
        = Outcome.intruder (3 / 5) ∧
      (recordAndTranscribe
        { cameraLocked := false, recordRaises := false,
          hasVoiceprint := true, voiceRaises := false,
          voiceSim := 3 / 5, sttRaises := false, sttText := "",
          hasFaceprint := true, faceCameraOpens := true,
          faceFrames := [FrameOutcome.face (9 / 10)] }).faceAttempted = false :=
  claim_C2_amended _ rfl rfl rfl rfl (by norm_num [voiceThreshold])

/-- Claim C3: every exception raised by a pipeline stage (recording, voice
verification, STT) is caught at the `try/except` boundary of
`_record_and_transcribe` rather than propagating — the result is the
error outcome with the user-facing "trouble understanding" message — and
the wake-word listener restart in the `finally` clause runs on every exit
path of the pipeline: success, camera-locked abort, security rejection,
empty result and error alike. -/
theorem claim_C3_catch_and_restart (env : PipelineEnv) (e : StageExc) :
    (recordAndTranscribe env).wakeRestarted = true ∧
      (pipelineTry env = Except.error e →
        (recordAndTranscribe env).outcome = Outcome.error ∧
          (recordAndTranscribe env).troubleMsg = true) := by
  constructor
  · rfl
  · intro h
    simp [recordAndTranscribe, h]

/-- Witness for C3: a concrete environment whose recording stage raises —
the exception is caught, the trouble message is emitted, and the wake
listener is restarted. -/
theorem claim_C3_witness :
    (recordAndTranscribe
        { cameraLocked := false, recordRaises := true,
          hasVoiceprint := true, voiceRaises := false,
          voiceSim := 1, sttRaises := false, sttText := "",
          hasFaceprint := false, faceCameraOpens := false,
          faceFrames := [] }).wakeRestarted = true ∧
      (recordAndTranscribe
          { cameraLocked := false, recordRaises := true,
            hasVoiceprint := true, voiceRaises := false,
            voiceSim := 1, sttRaises := false, sttText := "",
            hasFaceprint := false, faceCameraOpens := false,
            faceFrames := [] }).outcome = Outcome.error ∧
        (recordAndTranscribe
          { cameraLocked := false, recordRaises := true,
            hasVoiceprint := true, voiceRaises := false,
            voiceSim := 1, sttRaises := false, sttText := "",
            hasFaceprint := false, faceCameraOpens := false,
            faceFrames := [] }).troubleMsg = true :=
  ⟨(claim_C3_catch_and_restart
      { cameraLocked := false, recordRaises := true,
        hasVoiceprint := true, voiceRaises := false,
        voiceSim := 1, sttRaises := false, sttText := "",
        hasFaceprint := false, faceCameraOpens := false,
        faceFrames := [] } StageExc.recordFailed).1,
   ((claim_C3_catch_and_restart
      { cameraLocked := false, recordRaises := true,
        hasVoiceprint := true, voiceRaises := false,
        voiceSim := 1, sttRaises := false, sttText := "",
        hasFaceprint := false, faceCameraOpens := false,
        faceFrames := [] } StageExc.recordFailed).2 rfl).1,
   ((claim_C3_catch_and_restart
      { cameraLocked := false, recordRaises := true,
        hasVoiceprint := true, voiceRaises := false,
        voiceSim := 1, sttRaises := false, sttText := "",
        hasFaceprint := false, faceCameraOpens := false,
        faceFrames := [] } StageExc.recordFailed).2 rfl).2⟩

/-- Claim C5: whenever `verify_face_live` is invoked with a faceprint
enrolled and the camera opens successfully, the camera is released on
every exit path — first-frame match, attempts exhausted without a match,
or an exception raised mid-verification (the `finally` clause). -/
theorem claim_C5_camera_released (env : FaceEnv)
    (h1 : env.hasFaceprint = true) (h2 : env.cameraOpens = true) :
    (verify_face_live env).cameraReleased = true := by
  simp [verify_face_live, h1, h2]

/-- Witness for C5 on three concrete runs: a matching face, exhausted
attempts with no face, and an exception in the second iteration — the
camera is released in each case. -/
theorem claim_C5_witness :
    (verify_face_live ⟨true, true, [FrameOutcome.face (9 / 10)]⟩).cameraReleased
        = true ∧
      (verify_face_live ⟨true, true,
          [FrameOutcome.noFace, FrameOutcome.readFail]⟩).cameraReleased = true ∧
        (verify_face_live ⟨true, true,
            [FrameOutcome.face (1 / 2), FrameOutcome.raises]⟩).cameraReleased
          = true :=
  ⟨claim_C5_camera_released _ rfl rfl,
   claim_C5_camera_released _ rfl rfl,
   claim_C5_camera_released _ rfl rfl⟩

/-- Claim C8: at the `IdentityManager` interface, a missing prerequisite is
reported as a plain non-match, never as an exception: `verify_voice` with
no enrolled voiceprint returns `(False, 0.0)` without touching the
encoder, and `verify_face_live` with no enrolled faceprint, or with a
camera that cannot be opened, returns `(False, 0.0)` without raising. -/
theorem claim_C8_missing_prereq_nonmatch :
    (∀ (encoderRaises : Bool) (sim : ℚ),
        verify_voice false encoderRaises sim = Except.ok (false, 0)) ∧
      (∀ env : FaceEnv, env.hasFaceprint = false →
          verify_face_live env = ⟨false, 0, false, false, false⟩) ∧
        (∀ env : FaceEnv, env.cameraOpens = false →
            verify_face_live env = ⟨false, 0, false, false, false⟩) := by
  refine ⟨?_, ?_, ?_⟩
  · intro encoderRaises sim
    simp [verify_voice]
  · intro env h
    simp [verify_face_live, h]
  · intro env h
    by_cases hf : env.hasFaceprint = false <;>
      simp [verify_face_live, h, hf]

/-- Witness for C8: concrete calls — no voiceprint (even with a raising
encoder), no faceprint, and an unopenable camera — all yield
`(False, 0.0)` without raising. -/
theorem claim_C8_witness :
    verify_voice false true (9 / 10) = Except.ok (false, 0) ∧
      verify_face_live ⟨false, true, [FrameOutcome.face 1]⟩
          = ⟨false, 0, false, false, false⟩ ∧
        verify_face_live ⟨true, false, [FrameOutcome.face 1]⟩
          = ⟨false, 0, false, false, false⟩ :=
  ⟨claim_C8_missing_prereq_nonmatch.1 true (9 / 10),
   claim_C8_missing_prereq_nonmatch.2.1 ⟨false, true, [FrameOutcome.face 1]⟩ rfl,
   claim_C8_missing_prereq_nonmatch.2.2 ⟨true, false, [FrameOutcome.face 1]⟩ rfl⟩

/-- Claim C7 counterexample: `shutdown()` does *not* drain the queue.  With
`"hello"` queued and the worker idle, `shutdown()` clears `_running`
first, so every subsequent worker-loop iteration exits at the
`while self._running` check and `"hello"` is never spoken. -/
theorem claim_C7_counterexample : ¬ ttsShutdownDrains := by
  intro h
  obtain ⟨n, hn⟩ :=
    h ⟨["hello"], true, []⟩ rfl "hello" (by simp) (by decide)
  rw [workerRun_of_not_running n _ rfl] at hn
  simp [TTSState.shutdown] at hn

/-- Claim C7 (amended): `shutdown()` clears the running flag, enqueues an
empty sentinel to unblock the worker, and waits briefly for the in-flight
utterance; but utterances still queued at the moment of the call are
discarded, not spoken — after `shutdown()` the worker speaks nothing
further, no matter how many loop iterations it is granted. -/
theorem claim_C7_amended (s : TTSState) (n : Nat) :
    (TTSState.workerRun n s.shutdown).spoken = s.spoken ∧
      s.shutdown.running = false := by
  constructor
  · rw [workerRun_of_not_running n _ rfl]
    rfl
  · rfl

/-- Claim C10: `TTSService.speak` with an empty string, or called after
`shutdown()` has cleared the running flag, is a no-op: the state (queue
included) is exactly unchanged, and the call is a total function — it
neither blocks nor raises. -/
theorem claim_C10_speak_noop (s : TTSState) (t : String) :
    s.speak "" = s ∧ (s.running = false → s.speak t = s) := by
  constructor
  · simp [TTSState.speak]
  · intro h
    simp [TTSState.speak, h]

/-- Witness for C10: a concrete shut-down state on which `speak "hi"` and
`speak ""` both leave the state untouched. -/
theorem claim_C10_witness :
    (TTSState.mk [] false []).speak "" = TTSState.mk [] false [] ∧
      (TTSState.mk [] false []).speak "hi" = TTSState.mk [] false [] :=
  ⟨(claim_C10_speak_noop (TTSState.mk [] false []) "hi").1,
   (claim_C10_speak_noop (TTSState.mk [] false []) "hi").2 rfl⟩

end Vortex
